import Mathlib

/-!
# Verification of the IP-geolocation Flask app (`src/app.py`)

Shallow embedding of the request-scoped core of `app.py`:

* `get_ip_address` (app.py lines 14–38): candidate IP from the
  `X-Forwarded-For` header list or the remote address, with a loopback
  fallback to an external IP-discovery service.
* `get_geolocation_data` (app.py lines 41–73): cache-then-fetch lookup
  against the geolocation service, returning either the parsed record or a
  failure dict.
* `index` (app.py lines 76–91): the request handler orchestrating the two.

Modelling conventions:

* JSON values that occur in the flat response objects are modelled by `JVal`;
  number literals are kept as their textual form since the program never
  computes with them, only stores and returns them.
* A parsed JSON object is an association list with distinct keys
  (`JsonObj`); `JsonObj.get` models Python `dict.get`.
* The outcome of one `requests.get` call is a `ReqOutcome`: either a
  transport-level failure, or a delivered response with an HTTP status code
  and a body that is, or is not, decodable as JSON.
* Python exceptions relevant to the code are modelled by `PyExc`, and each
  `except` clause by a Boolean class test.  The class hierarchy follows the
  `requests` library as published since version 2.27 (January 2022, the only
  line installable since): `requests.exceptions.JSONDecodeError` subclasses
  `InvalidJSONError`, hence `RequestException`, and also
  `json.JSONDecodeError`, hence `ValueError`; `HTTPError` subclasses
  `RequestException`; `KeyError` is none of these.
* The global `IP_CACHE` dict becomes an explicit association-list parameter
  threaded through, with dict insertion as cons-to-front (lookup finds the
  newest binding first, matching dict update/lookup).
* Each function additionally returns the number of outbound HTTP calls it
  performed, so that "no outbound call" claims are statable.
-/

/-- A JSON scalar value as it occurs in the flat response objects of the two
external services.  Numbers keep their source literal, since the program
never computes with them. -/
inductive JVal where
  | jstr (s : String)
  | jnum (lit : String)
  | jbool (b : Bool)
  | jnull
  deriving DecidableEq, Repr

deriving instance DecidableEq for Except

/-- A parsed flat JSON object: association list from field name to value.
A parsed Python dict has distinct keys, so first-match lookup agrees with
dict lookup. -/
def JsonObj : Type := List (String × JVal)

instance : DecidableEq JsonObj := inferInstanceAs (DecidableEq (List (String × JVal)))

/-- Python `data.get(k)`: `some` value when the key is present, else `none`. -/
def JsonObj.get (o : JsonObj) (k : String) : Option JVal :=
  (List.find? (fun p => p.1 = k) o).map (fun p => p.2)

/-- The outcome of a single `requests.get` call, as seen by the caller:
either a transport-level failure (connection error, timeout, invalid URL —
all `RequestException`s raised before a response exists), or a delivered
response with its HTTP status code and its body, the latter given as
`some` parsed object when JSON-decodable and `none` otherwise. -/
inductive ReqOutcome where
  | netError
  | resp (status : Nat) (body : Option JsonObj)
  deriving DecidableEq

/-- The Python exception classes the code can raise or catch. -/
inductive PyExc where
  | connectionError
  | httpError (status : Nat)
  | jsonDecodeError
  | keyError (key : String)
  | typeError
  deriving DecidableEq, Repr

/-- Membership in `requests.exceptions.HTTPError`. -/
def PyExc.isHTTPError : PyExc → Bool
  | .httpError _ => true
  | _ => false

/-- Membership in `requests.exceptions.RequestException`.
`jsonDecodeError` is included because `requests.exceptions.JSONDecodeError`
subclasses `InvalidJSONError`, itself a `RequestException` (requests ≥ 2.27).
`HTTPError` also subclasses `RequestException`. -/
def PyExc.isRequestException : PyExc → Bool
  | .connectionError => true
  | .httpError _ => true
  | .jsonDecodeError => true
  | _ => false

/-- Membership in `ValueError`.  `requests.exceptions.JSONDecodeError` also
subclasses `json.JSONDecodeError`, a `ValueError`. -/
def PyExc.isValueError : PyExc → Bool
  | .jsonDecodeError => true
  | _ => false

/-- `response.raise_for_status()`: raises `HTTPError` exactly for client
(4xx) and server (5xx) error status codes, nothing else. -/
def raiseForStatus (status : Nat) : Option PyExc :=
  if 400 ≤ status ∧ status < 600 then some (.httpError status) else none

/-- The result of `get_geolocation_data` as Python sees it: either the parsed
record returned verbatim, or the failure dict
`\x7b"error": True, "message": m\x7d`, determined by its message value. -/
inductive GeoResult where
  | ok (data : JsonObj)
  | err (message : JVal)
  deriving DecidableEq

/-- The `IP_CACHE` dict: association list from IP string to cached record,
newest binding first. -/
def Cache : Type := List (String × JsonObj)

instance : DecidableEq Cache := inferInstanceAs (DecidableEq (List (String × JsonObj)))

/-- Dict lookup in `IP_CACHE` (both `ip_address in IP_CACHE` and
`IP_CACHE[ip_address]`): first match is the newest binding. -/
def lookupCache (c : Cache) (ip : String) : Option JsonObj :=
  (List.find? (fun p => p.1 = ip) c).map (fun p => p.2)

/-- Dict store `IP_CACHE[ip_address] = data`. -/
def insertCache (c : Cache) (ip : String) (d : JsonObj) : Cache :=
  (ip, d) :: c

/-- Python `str.split(sep)` for a one-character separator, on the character
list: splits at every occurrence, keeps empty pieces, and yields `[""]` on
the empty string. -/
def splitChar (sep : Char) : List Char → List (List Char)
  | [] => [[]]
  | c :: cs =>
    if c = sep then [] :: splitChar sep cs
    else
      match splitChar sep cs with
      | h :: t => (c :: h) :: t
      | [] => [[c]]

/-- ASCII whitespace as recognised by Python `str.strip()` (space, tab,
newline, carriage return, vertical tab, form feed; the Unicode space
characters it also strips play no role here). -/
def pyIsSpace (c : Char) : Bool :=
  c = ' ' || c = '\t' || c = '\n' || c = '\r' || c = '\x0b' || c = '\x0c'

/-- Python `str.strip()`: remove leading and trailing whitespace. -/
def pyStrip (s : String) : String :=
  ⟨((s.data.dropWhile pyIsSpace).reverse.dropWhile pyIsSpace).reverse⟩

/-- app.py lines 21–25: the candidate IP before the loopback check.  If the
`X-Forwarded-For` header list is non-empty, the first comma-separated piece
of its first value, stripped of surrounding whitespace
(`getlist(...)[0].split(',')[0].strip()`; `split` never returns an empty
list, so indexing with 0 is total); otherwise the connection's remote
address. -/
def candidateIp (xff : List String) (remoteAddr : String) : String :=
  match xff with
  | [] => remoteAddr
  | h :: _ => pyStrip ⟨(splitChar ',' h.data).headD []⟩

/-- The `try` block of the loopback fallback (app.py lines 31–33): the value
of `response.json()['ip']`, or the exception it raises.

In this block: a transport failure raises `ConnectionError`;
`raise_for_status` raises `HTTPError` on 4xx/5xx; `response.json()` raises
`requests.exceptions.JSONDecodeError` on an undecodable body; and
`response.json()['ip']` raises `KeyError` when the parsed object lacks the
key.  The single `except requests.exceptions.RequestException` clause
catches the first three (returning the sentinel string) but not `KeyError`,
which escapes. -/
def ipifyTry (ipify : ReqOutcome) : Except PyExc JVal :=
  match ipify with
  | .netError => .error .connectionError
  | .resp status body =>
    match raiseForStatus status with
    | some e => .error e
    | none =>
      match body with
      | none => .error .jsonDecodeError
      | some data =>
        match JsonObj.get data "ip" with
        | some v => .ok v
        | none => .error (.keyError "ip")

/-- app.py lines 14–38, `get_ip_address`.  Parameters: the
`X-Forwarded-For` header value list, the remote address, and the outcome the
IP-discovery service would deliver if called.  Returns the value the Python
function returns (or the exception that escapes it), paired with the number
of outbound HTTP calls performed. -/
def get_ip_address (xff : List String) (remoteAddr : String)
    (ipify : ReqOutcome) : Except PyExc JVal × Nat :=
  let ip := candidateIp xff remoteAddr
  if ip = "127.0.0.1" then
    match ipifyTry ipify with
    | .ok v => (.ok v, 1)
    | .error e =>
      if e.isRequestException then (.ok (.jstr "Unable to fetch public IP"), 1)
      else (.error e, 1)
  else
    (.ok (.jstr ip), 0)

/-- The `try` block of the geolocation fetch (app.py lines 54–64): the
returned value together with the cache afterwards, or the exception the
block raises. -/
def geoTry (cache : Cache) (ip : String) (net : ReqOutcome) :
    Except PyExc (GeoResult × Cache) :=
  match net with
  | .netError => .error .connectionError
  | .resp status body =>
    match raiseForStatus status with
    | some e => .error e
    | none =>
      match body with
      | none => .error .jsonDecodeError
      | some data =>
        if JsonObj.get data "status" = some (.jstr "success") then
          .ok (.ok data, insertCache cache ip data)
        else
          .ok (.err ((JsonObj.get data "message").getD
                (.jstr "Failed to get geolocation data.")), cache)

/-- app.py lines 41–73, `get_geolocation_data`.  Parameters: the current
cache, the queried IP, and the outcome the geolocation service would deliver
if called.  Returns the Python return value (or escaping exception) together
with the cache afterwards, paired with the number of outbound HTTP calls.

The `except` clauses are tried in source order: `HTTPError`, then
`RequestException`, then `ValueError`.  Because
`requests.exceptions.JSONDecodeError` is a `RequestException` (requests
≥ 2.27), an undecodable body is caught by the second clause, and the
`except ValueError` clause is unreachable. -/
def get_geolocation_data (cache : Cache) (ip : String)
    (net : ReqOutcome) : Except PyExc (GeoResult × Cache) × Nat :=
  match lookupCache cache ip with
  | some data => (.ok (.ok data, cache), 0)
  | none =>
    match geoTry cache ip net with
    | .ok rc => (.ok rc, 1)
    | .error e =>
      if e.isHTTPError then
        (.ok (.err (.jstr "Service unavailable or invalid IP."), cache), 1)
      else if e.isRequestException then
        (.ok (.err (.jstr "Network error while fetching geolocation data."),
          cache), 1)
      else if e.isValueError then
        (.ok (.err (.jstr "Error processing geolocation data."), cache), 1)
      else
        (.error e, 1)

/-- Contiguous-sublist test on character lists: the pattern occurs at some
position. -/
def listContainsSub (pat : List Char) : List Char → Bool
  | [] => pat.isEmpty
  | c :: t => List.isPrefixOf pat (c :: t) || listContainsSub pat t

/-- Python `pat in s` for strings: substring containment. -/
def strContains (s pat : String) : Bool :=
  listContainsSub pat.data s.data

/-- app.py lines 76–91, `index`.  Returns the pair handed to the render
step — the displayed IP value and the location record — or the exception
escaping the handler, together with the cache afterwards and the total
number of outbound HTTP calls.  Python `"Unable" in user_ip` raises
`TypeError` when `user_ip` is not a string. -/
def index (xff : List String) (remoteAddr : String) (ipify : ReqOutcome)
    (geo : ReqOutcome) (cache : Cache) :
    Except PyExc (JVal × GeoResult) × Cache × Nat :=
  match get_ip_address xff remoteAddr ipify with
  | (.error e, n) => (.error e, cache, n)
  | (.ok userIp, n) =>
    match userIp with
    | .jstr s =>
      if strContains s "Unable" then
        (.ok (userIp, .err (.jstr "Could not determine your IP address.")),
          cache, n)
      else
        match get_geolocation_data cache s geo with
        | (.ok (r, c2), m) => (.ok (userIp, r), c2, n + m)
        | (.error e, m) => (.error e, cache, n + m)
    | _ => (.error .typeError, cache, n)

/-- IP-discovery outcomes on which the loopback fallback terminates
normally: everything except a delivered response that passes
`raise_for_status` (no 4xx/5xx), decodes as JSON, and lacks the `"ip"` key
(on which `response.json()['ip']` raises an uncaught `KeyError`). -/
def ipifyHasIpKey : ReqOutcome → Bool
  | .resp status (some data) =>
    (decide (400 ≤ status) && decide (status < 600)) ||
      (JsonObj.get data "ip").isSome
  | _ => true

/-! ## Helper lemmas -/

theorem lookupCache_insert (c : Cache) (ip k : String) (d : JsonObj) :
    lookupCache (insertCache c ip d) k =
      if ip = k then some d else lookupCache c k := by
  by_cases h : ip = k
  · simp [lookupCache, insertCache, List.find?_cons, h]
  · simp [lookupCache, insertCache, List.find?_cons, h]

/-- A cache hit returns the cached record with no outbound call. -/
theorem get_geo_hit (cache : Cache) (ip : String) (net : ReqOutcome)
    (d : JsonObj) (h : lookupCache cache ip = some d) :
    get_geolocation_data cache ip net = (Except.ok (GeoResult.ok d, cache), 0) := by
  unfold get_geolocation_data
  rw [h]

/-- On a cache miss, `get_geolocation_data` is the `try` block wrapped in the
three `except` clauses, with one outbound call. -/
theorem get_geo_miss_eq (cache : Cache) (ip : String) (net : ReqOutcome)
    (h : lookupCache cache ip = none) :
    get_geolocation_data cache ip net =
      (match geoTry cache ip net with
       | .ok rc => (.ok rc, 1)
       | .error e =>
         if e.isHTTPError then
           (.ok (.err (.jstr "Service unavailable or invalid IP."), cache), 1)
         else if e.isRequestException then
           (.ok (.err (.jstr "Network error while fetching geolocation data."),
             cache), 1)
         else if e.isValueError then
           (.ok (.err (.jstr "Error processing geolocation data."), cache), 1)
         else (.error e, 1)) := by
  unfold get_geolocation_data
  rw [h]

/-- Every normal return of the geolocation `try` block is either a cached
success record or a failure that leaves the cache alone. -/
theorem geoTry_ok_cases (cache : Cache) (ip : String) (net : ReqOutcome)
    (r : GeoResult) (c2 : Cache) (h : geoTry cache ip net = .ok (r, c2)) :
    (∃ d, r = GeoResult.ok d ∧
       JsonObj.get d "status" = some (JVal.jstr "success") ∧
       c2 = insertCache cache ip d) ∨
    ((∃ m, r = GeoResult.err m) ∧ c2 = cache) := by
  cases net with
  | netError => simp [geoTry] at h
  | resp status body =>
    simp only [geoTry] at h
    cases hrs : raiseForStatus status with
    | some e => rw [hrs] at h; simp at h
    | none =>
      rw [hrs] at h
      dsimp only at h
      cases body with
      | none => simp at h
      | some data =>
        dsimp only at h
        by_cases hs : JsonObj.get data "status" = some (JVal.jstr "success")
        · rw [if_pos hs] at h
          simp only [Except.ok.injEq, Prod.mk.injEq] at h
          exact Or.inl ⟨data, h.1.symm, hs, h.2.symm⟩
        · rw [if_neg hs] at h
          simp only [Except.ok.injEq, Prod.mk.injEq] at h
          exact Or.inr ⟨⟨_, h.1.symm⟩, h.2.symm⟩

/-- Every exception the geolocation `try` block raises is a
`RequestException` (so some `except` clause catches it). -/
theorem geoTry_error_isReq (cache : Cache) (ip : String) (net : ReqOutcome)
    (e : PyExc) (h : geoTry cache ip net = .error e) :
    e.isRequestException = true := by
  cases net with
  | netError =>
    simp only [geoTry, Except.error.injEq] at h
    subst h; rfl
  | resp status body =>
    simp only [geoTry] at h
    cases hrs : raiseForStatus status with
    | some e2 =>
      rw [hrs] at h
      dsimp only at h
      unfold raiseForStatus at hrs
      by_cases hc : 400 ≤ status ∧ status < 600
      · rw [if_pos hc] at hrs
        simp only [Option.some.injEq] at hrs
        simp only [Except.error.injEq] at h
        rw [← h, ← hrs]; rfl
      · rw [if_neg hc] at hrs; cases hrs
    | none =>
      rw [hrs] at h
      dsimp only at h
      cases body with
      | none =>
        simp only [Except.error.injEq] at h
        subst h; rfl
      | some data =>
        dsimp only at h
        by_cases hs : JsonObj.get data "status" = some (JVal.jstr "success")
        · rw [if_pos hs] at h; cases h
        · rw [if_neg hs] at h; cases h

/-- On a cache miss, `get_geolocation_data` makes exactly one outbound call,
never lets an exception escape, and either caches one success record or
returns a failure leaving the cache alone. -/
theorem get_geo_miss_spec (cache : Cache) (ip : String) (net : ReqOutcome)
    (hmiss : lookupCache cache ip = none) :
    ∃ r c2, get_geolocation_data cache ip net = (Except.ok (r, c2), 1) ∧
      ((∃ d, r = GeoResult.ok d ∧
          JsonObj.get d "status" = some (JVal.jstr "success") ∧
          c2 = insertCache cache ip d) ∨
       ((∃ m, r = GeoResult.err m) ∧ c2 = cache)) := by
  rw [get_geo_miss_eq cache ip net hmiss]
  cases hg : geoTry cache ip net with
  | ok rc =>
    obtain ⟨r, c2⟩ := rc
    exact ⟨r, c2, rfl, geoTry_ok_cases cache ip net r c2 hg⟩
  | error e =>
    have hreq := geoTry_error_isReq cache ip net e hg
    by_cases hh : e.isHTTPError = true
    · refine ⟨GeoResult.err (JVal.jstr "Service unavailable or invalid IP."),
        cache, ?_, Or.inr ⟨⟨_, rfl⟩, rfl⟩⟩
      simp [hh]
    · refine ⟨GeoResult.err
        (JVal.jstr "Network error while fetching geolocation data."),
        cache, ?_, Or.inr ⟨⟨_, rfl⟩, rfl⟩⟩
      simp only [Bool.not_eq_true] at hh
      simp [hh, hreq]

/-! ## Claim theorems -/

/-- C1: whenever the candidate IP (first comma-separated value of the first
`X-Forwarded-For` header value, stripped, when the header list is non-empty;
otherwise the remote address) differs from `"127.0.0.1"`, `get_ip_address`
returns exactly that candidate string and performs no outbound HTTP call. -/
theorem c1_nonloopback_passthrough (xff : List String) (remoteAddr : String)
    (ipify : ReqOutcome) (h : candidateIp xff remoteAddr ≠ "127.0.0.1") :
    get_ip_address xff remoteAddr ipify =
      (Except.ok (JVal.jstr (candidateIp xff remoteAddr)), 0) := by
  unfold get_ip_address
  simp only [if_neg h]

theorem c1_witness :
    candidateIp ["8.8.8.8"] "0.0.0.0" ≠ "127.0.0.1" ∧
    get_ip_address ["8.8.8.8"] "0.0.0.0" ReqOutcome.netError =
      (Except.ok (JVal.jstr (candidateIp ["8.8.8.8"] "0.0.0.0")), 0) :=
  ⟨by decide,
   c1_nonloopback_passthrough ["8.8.8.8"] "0.0.0.0" ReqOutcome.netError (by decide)⟩

/-- C2: for an uncached IP, a 2xx response with a decodable body whose
`status` field is the string `"success"` is returned verbatim (the whole
record, all fields exactly as received) and stored in the cache under the
queried IP. -/
theorem c2_success_returned_and_cached (cache : Cache) (ip : String)
    (status : Nat) (data : JsonObj) (hmiss : lookupCache cache ip = none)
    (h2 : 200 ≤ status) (h3 : status < 300)
    (hs : JsonObj.get data "status" = some (JVal.jstr "success")) :
    get_geolocation_data cache ip (ReqOutcome.resp status (some data)) =
      (Except.ok (GeoResult.ok data, insertCache cache ip data), 1) ∧
    lookupCache (insertCache cache ip data) ip = some data := by
  have hns : ¬ (400 ≤ status ∧ status < 600) := by omega
  constructor
  · rw [get_geo_miss_eq cache ip _ hmiss]
    have hgt : geoTry cache ip (ReqOutcome.resp status (some data)) =
        .ok (.ok data, insertCache cache ip data) := by
      simp [geoTry, raiseForStatus, hns, hs]
    rw [hgt]
  · rw [lookupCache_insert]
    simp

theorem c2_witness :
    lookupCache [] "8.8.8.8" = none ∧
    get_geolocation_data [] "8.8.8.8" (ReqOutcome.resp 200 (some
        [("status", JVal.jstr "success"), ("country", JVal.jstr "US"),
         ("regionName", JVal.jstr "CA"), ("city", JVal.jstr "Mountain View"),
         ("zip", JVal.jstr "94043"), ("lat", JVal.jnum "37.4"),
         ("lon", JVal.jnum "-122.1"), ("isp", JVal.jstr "Example ISP")])) =
      (Except.ok (GeoResult.ok
        [("status", JVal.jstr "success"), ("country", JVal.jstr "US"),
         ("regionName", JVal.jstr "CA"), ("city", JVal.jstr "Mountain View"),
         ("zip", JVal.jstr "94043"), ("lat", JVal.jnum "37.4"),
         ("lon", JVal.jnum "-122.1"), ("isp", JVal.jstr "Example ISP")],
        insertCache [] "8.8.8.8"
        [("status", JVal.jstr "success"), ("country", JVal.jstr "US"),
         ("regionName", JVal.jstr "CA"), ("city", JVal.jstr "Mountain View"),
         ("zip", JVal.jstr "94043"), ("lat", JVal.jnum "37.4"),
         ("lon", JVal.jnum "-122.1"), ("isp", JVal.jstr "Example ISP")]), 1) ∧
    lookupCache (insertCache [] "8.8.8.8"
        [("status", JVal.jstr "success"), ("country", JVal.jstr "US"),
         ("regionName", JVal.jstr "CA"), ("city", JVal.jstr "Mountain View"),
         ("zip", JVal.jstr "94043"), ("lat", JVal.jnum "37.4"),
         ("lon", JVal.jnum "-122.1"), ("isp", JVal.jstr "Example ISP")])
      "8.8.8.8" = some
        [("status", JVal.jstr "success"), ("country", JVal.jstr "US"),
         ("regionName", JVal.jstr "CA"), ("city", JVal.jstr "Mountain View"),
         ("zip", JVal.jstr "94043"), ("lat", JVal.jnum "37.4"),
         ("lon", JVal.jnum "-122.1"), ("isp", JVal.jstr "Example ISP")] :=
  ⟨by decide,
   c2_success_returned_and_cached [] "8.8.8.8" 200 _
     (by decide) (by decide) (by decide) (by decide)⟩

/-- C3: a warm cache entry is returned identically with no outbound call,
for any state of the network; consequently two consecutive lookups of the
same IP, the first of which (on a cold cache) returned a success record,
perform exactly one outbound geolocation call in total. -/
theorem c3_cache_hit_idempotent :
    (∀ (cache : Cache) (ip : String) (net : ReqOutcome) (d : JsonObj),
       lookupCache cache ip = some d →
       get_geolocation_data cache ip net =
         (Except.ok (GeoResult.ok d, cache), 0)) ∧
    (∀ (cache : Cache) (ip : String) (net1 net2 : ReqOutcome) (d : JsonObj)
       (c1 : Cache) (n1 : Nat),
       lookupCache cache ip = none →
       get_geolocation_data cache ip net1 =
         (Except.ok (GeoResult.ok d, c1), n1) →
       n1 = 1 ∧
       get_geolocation_data c1 ip net2 =
         (Except.ok (GeoResult.ok d, c1), 0)) := by
  constructor
  · exact fun cache ip net d h => get_geo_hit cache ip net d h
  · intro cache ip net1 net2 d c1 n1 hmiss h1
    obtain ⟨r, c2, heq, hcases⟩ := get_geo_miss_spec cache ip net1 hmiss
    have h2 := heq.symm.trans h1
    simp only [Prod.mk.injEq, Except.ok.injEq] at h2
    obtain ⟨⟨hr, hc⟩, hn⟩ := h2
    subst hr
    subst hc
    refine ⟨hn.symm, ?_⟩
    rcases hcases with ⟨d2, hd2, hstat, hins⟩ | ⟨⟨m, hm⟩, hsame⟩
    · obtain rfl : d = d2 := by injection hd2
      subst hins
      exact get_geo_hit _ _ _ _ (by rw [lookupCache_insert]; simp)
    · simp at hm

theorem c3_witness :
    get_geolocation_data [("1.2.3.4", [("status", JVal.jstr "success")])]
        "1.2.3.4" ReqOutcome.netError =
      (Except.ok (GeoResult.ok [("status", JVal.jstr "success")],
        [("1.2.3.4", [("status", JVal.jstr "success")])]), 0) :=
  c3_cache_hit_idempotent.1 _ "1.2.3.4" ReqOutcome.netError _ (by decide)

/-- C4: whenever a lookup returns normally, every previously cached entry is
still present afterwards, the cache either stays the same or gains exactly
the queried IP mapped to a success record (only on a miss whose fetch had
`status = "success"`), and on every failure result the cache is unchanged —
so on a miss that fails, one outbound call was made and the IP is still
uncached afterwards (a later lookup re-fetches). -/
theorem c4_cache_monotone (cache : Cache) (ip : String) (net : ReqOutcome)
    (r : GeoResult) (c2 : Cache) (n : Nat)
    (h : get_geolocation_data cache ip net = (Except.ok (r, c2), n)) :
    (∀ k v, lookupCache cache k = some v → lookupCache c2 k = some v) ∧
    (c2 = cache ∨ (lookupCache cache ip = none ∧ ∃ d, r = GeoResult.ok d ∧
       JsonObj.get d "status" = some (JVal.jstr "success") ∧
       c2 = insertCache cache ip d)) ∧
    (∀ m, r = GeoResult.err m →
       c2 = cache ∧ (lookupCache cache ip = none →
         n = 1 ∧ lookupCache c2 ip = none)) := by
  cases hm : lookupCache cache ip with
  | some d =>
    rw [get_geo_hit cache ip net d hm] at h
    simp only [Prod.mk.injEq, Except.ok.injEq] at h
    obtain ⟨⟨hr, hc⟩, hn⟩ := h
    subst hc
    refine ⟨fun k v hv => hv, Or.inl rfl, fun m hm2 => ?_⟩
    rw [← hr] at hm2
    simp at hm2
  | none =>
    obtain ⟨r2, c3, heq, hcases⟩ := get_geo_miss_spec cache ip net hm
    have h2 := heq.symm.trans h
    simp only [Prod.mk.injEq, Except.ok.injEq] at h2
    obtain ⟨⟨hr, hc⟩, hn⟩ := h2
    subst hr
    subst hc
    subst hn
    rcases hcases with ⟨d, hd, hstat, hins⟩ | ⟨⟨m0, hm0⟩, hcc⟩
    · subst hins
      refine ⟨fun k v hv => ?_, Or.inr ⟨rfl, d, hd, hstat, rfl⟩,
        fun m hmE => ?_⟩
      · rw [lookupCache_insert]
        by_cases hk : ip = k
        · subst hk
          rw [hm] at hv
          cases hv
        · rw [if_neg hk]
          exact hv
      · rw [hd] at hmE
        simp at hmE
    · subst hcc
      exact ⟨fun k v hv => hv, Or.inl rfl,
        fun m hmE => ⟨rfl, fun _ => ⟨rfl, hm⟩⟩⟩

theorem c4_witness :
    (∀ k v, lookupCache [] k = some v → lookupCache [] k = some v) ∧
    (([] : Cache) = [] ∨ (lookupCache [] "1.2.3.4" = none ∧
       ∃ d, GeoResult.err
           (JVal.jstr "Network error while fetching geolocation data.") =
           GeoResult.ok d ∧
         JsonObj.get d "status" = some (JVal.jstr "success") ∧
         ([] : Cache) = insertCache [] "1.2.3.4" d)) ∧
    (∀ m, GeoResult.err
        (JVal.jstr "Network error while fetching geolocation data.") =
        GeoResult.err m →
       ([] : Cache) = [] ∧ (lookupCache [] "1.2.3.4" = none →
         1 = 1 ∧ lookupCache ([] : Cache) "1.2.3.4" = none)) :=
  c4_cache_monotone [] "1.2.3.4" ReqOutcome.netError
    (GeoResult.err (JVal.jstr "Network error while fetching geolocation data."))
    [] 1 (by decide)

/-- C5 (code behavior at the claimed input): for an uncached IP, a 200
response whose body is not decodable as JSON makes the code return the
failure message "Network error while fetching geolocation data." — not the
"Error processing geolocation data." the claim states — because the HTTP
client library's JSON-decoding exception is a `RequestException`, and that
`except` clause precedes the `except ValueError` clause the source comments
designate for decoding errors. -/
theorem c5_unparseable_body_network_message :
    get_geolocation_data [] "1.2.3.4" (ReqOutcome.resp 200 none) =
      (Except.ok (GeoResult.err
        (JVal.jstr "Network error while fetching geolocation data."), []), 1) ∧
    (JVal.jstr "Network error while fetching geolocation data." ≠
     JVal.jstr "Error processing geolocation data.") := by decide

/-- C6 (counterexample): a 304 response is non-2xx, yet `raise_for_status`
raises only on 4xx/5xx, so the code proceeds to parse the body — here it
even returns a success record and caches it, instead of the claimed
`\x7berror: true, message: "Service unavailable or invalid IP."\x7d`. -/
theorem c6_counterexample :
    get_geolocation_data [] "1.2.3.4"
        (ReqOutcome.resp 304 (some [("status", JVal.jstr "success")])) =
      (Except.ok (GeoResult.ok [("status", JVal.jstr "success")],
        [("1.2.3.4", [("status", JVal.jstr "success")])]), 1) ∧
    GeoResult.ok [("status", JVal.jstr "success")] ≠
      GeoResult.err (JVal.jstr "Service unavailable or invalid IP.") := by
  decide

/-- C6 (amended): for every IP not in the cache, if the geolocation service
responds with a 4xx or 5xx HTTP status (the statuses on which
`raise_for_status` raises), lookup returns the failure record with message
"Service unavailable or invalid IP." and leaves the cache unchanged. -/
theorem c6_amended_http_error_message (cache : Cache) (ip : String)
    (status : Nat) (body : Option JsonObj)
    (hmiss : lookupCache cache ip = none)
    (h4 : 400 ≤ status) (h6 : status < 600) :
    get_geolocation_data cache ip (ReqOutcome.resp status body) =
      (Except.ok (GeoResult.err
        (JVal.jstr "Service unavailable or invalid IP."), cache), 1) := by
  rw [get_geo_miss_eq cache ip _ hmiss]
  have hgt : geoTry cache ip (ReqOutcome.resp status body) =
      .error (.httpError status) := by
    simp [geoTry, raiseForStatus, h4, h6]
  rw [hgt]
  rfl

theorem c6_witness :
    get_geolocation_data [] "1.2.3.4" (ReqOutcome.resp 404 none) =
      (Except.ok (GeoResult.err
        (JVal.jstr "Service unavailable or invalid IP."), []), 1) :=
  c6_amended_http_error_message [] "1.2.3.4" 404 none
    (by decide) (by decide) (by decide)

/-- C7: for an uncached IP, a decodable 2xx response whose `status` field is
not the string `"success"` yields a failure record whose message is the
response's `message` field, or "Failed to get geolocation data." when the
response has no `message` field; the cache is unchanged. -/
theorem c7_upstream_fail_message (cache : Cache) (ip : String) (status : Nat)
    (data : JsonObj) (hmiss : lookupCache cache ip = none)
    (h2 : 200 ≤ status) (h3 : status < 300)
    (hf : ¬ JsonObj.get data "status" = some (JVal.jstr "success")) :
    get_geolocation_data cache ip (ReqOutcome.resp status (some data)) =
      (Except.ok (GeoResult.err ((JsonObj.get data "message").getD
        (JVal.jstr "Failed to get geolocation data.")), cache), 1) := by
  have hns : ¬ (400 ≤ status ∧ status < 600) := by omega
  rw [get_geo_miss_eq cache ip _ hmiss]
  have hgt : geoTry cache ip (ReqOutcome.resp status (some data)) =
      .ok (.err ((JsonObj.get data "message").getD
        (JVal.jstr "Failed to get geolocation data.")), cache) := by
    simp [geoTry, raiseForStatus, hns, hf]
  rw [hgt]

theorem c7_witness :
    get_geolocation_data [] "10.0.0.1" (ReqOutcome.resp 200 (some
        [("status", JVal.jstr "fail"),
         ("message", JVal.jstr "private range")])) =
      (Except.ok (GeoResult.err (JVal.jstr "private range"), []), 1) := by
  rw [c7_upstream_fail_message [] "10.0.0.1" 200
    [("status", JVal.jstr "fail"), ("message", JVal.jstr "private range")]
    (by decide) (by decide) (by decide) (by decide)]
  decide

/-- Every exception the loopback-fallback `try` block raises is either a
`RequestException` (caught, yielding the sentinel string) or the uncaught
`KeyError` for a missing `"ip"` key. -/
theorem ipifyTry_error_cases (ipify : ReqOutcome) (e : PyExc)
    (h : ipifyTry ipify = .error e) :
    e.isRequestException = true ∨
      (e = .keyError "ip" ∧ ipifyHasIpKey ipify = false) := by
  cases ipify with
  | netError =>
    simp only [ipifyTry, Except.error.injEq] at h
    subst h
    exact Or.inl rfl
  | resp status body =>
    simp only [ipifyTry] at h
    cases hrs : raiseForStatus status with
    | some e2 =>
      rw [hrs] at h
      dsimp only at h
      unfold raiseForStatus at hrs
      by_cases hc : 400 ≤ status ∧ status < 600
      · rw [if_pos hc] at hrs
        simp only [Option.some.injEq] at hrs
        simp only [Except.error.injEq] at h
        rw [← h, ← hrs]
        exact Or.inl rfl
      · rw [if_neg hc] at hrs
        cases hrs
    | none =>
      rw [hrs] at h
      dsimp only at h
      have hc : ¬ (400 ≤ status ∧ status < 600) := by
        intro hcc
        unfold raiseForStatus at hrs
        rw [if_pos hcc] at hrs
        cases hrs
      cases body with
      | none =>
        simp only [Except.error.injEq] at h
        subst h
        exact Or.inl rfl
      | some data =>
        dsimp only at h
        cases hg : JsonObj.get data "ip" with
        | some v =>
          rw [hg] at h
          cases h
        | none =>
          rw [hg] at h
          simp only [Except.error.injEq] at h
          subst h
          refine Or.inr ⟨rfl, ?_⟩
          simp only [ipifyHasIpKey, hg, Option.isSome_none, Bool.or_false]
          by_cases h4 : 400 ≤ status
          · have h6 : ¬ status < 600 := fun hlt => hc ⟨h4, hlt⟩
            simp [h6]
          · simp [h4]

/-- C8 (counterexample): in the loopback fallback path, a 2xx response whose
body decodes to a JSON object without an `"ip"` key makes `get_ip_address`
raise an uncaught `KeyError` — the resolve operation neither returns an IP
string nor the ResolutionError sentinel; the exception propagates. -/
theorem c8_counterexample :
    get_ip_address ["127.0.0.1"] "0.0.0.0" (ReqOutcome.resp 200 (some [])) =
      (Except.error (PyExc.keyError "ip"), 1) := by decide

/-- C8 (amended): for every IP-discovery outcome except a delivered
non-4xx/5xx response whose decoded body lacks the `"ip"` key, the resolve
operation terminates normally, returning either an IP value or the
ResolutionError sentinel string; only the missing-key case escapes as an
uncaught exception. -/
theorem c8_amended_no_escape (xff : List String) (remoteAddr : String)
    (ipify : ReqOutcome) (hkey : ipifyHasIpKey ipify = true) :
    ∃ v n, get_ip_address xff remoteAddr ipify = (Except.ok v, n) := by
  unfold get_ip_address
  by_cases hip : candidateIp xff remoteAddr = "127.0.0.1"
  · simp only [if_pos hip]
    cases ht : ipifyTry ipify with
    | ok v => exact ⟨v, 1, rfl⟩
    | error e =>
      rcases ipifyTry_error_cases ipify e ht with hreq | ⟨he, hfalse⟩
      · refine ⟨.jstr "Unable to fetch public IP", 1, ?_⟩
        simp [hreq]
      · rw [hfalse] at hkey
        cases hkey
  · simp only [if_neg hip]
    exact ⟨.jstr (candidateIp xff remoteAddr), 0, rfl⟩

theorem c8_witness :
    ipifyHasIpKey (ReqOutcome.resp 200 (some [("ip", JVal.jstr "5.5.5.5")])) =
      true ∧
    ∃ v n, get_ip_address ["127.0.0.1"] "0.0.0.0"
        (ReqOutcome.resp 200 (some [("ip", JVal.jstr "5.5.5.5")])) =
      (Except.ok v, n) :=
  ⟨by decide,
   c8_amended_no_escape ["127.0.0.1"] "0.0.0.0"
     (ReqOutcome.resp 200 (some [("ip", JVal.jstr "5.5.5.5")])) (by decide)⟩

/-- C9: the handler tests the resolved string for the substring "Unable";
whenever resolution returned a string containing it — however it was
produced, including via the `X-Forwarded-For` header — the handler performs
no geolocation lookup and renders that string together with the failure
record whose message is "Could not determine your IP address.", leaving the
cache untouched. -/
theorem c9_unable_substring_check (xff : List String) (remoteAddr : String)
    (ipify geo : ReqOutcome) (cache : Cache) (s : String) (n : Nat)
    (h : get_ip_address xff remoteAddr ipify = (Except.ok (JVal.jstr s), n))
    (hc : strContains s "Unable" = true) :
    index xff remoteAddr ipify geo cache =
      (Except.ok (JVal.jstr s,
        GeoResult.err (JVal.jstr "Could not determine your IP address.")),
       cache, n) := by
  unfold index
  rw [h]
  dsimp only
  rw [if_pos hc]

theorem c9_witness :
    index ["Unable x"] "9.9.9.9" ReqOutcome.netError ReqOutcome.netError [] =
      (Except.ok (JVal.jstr "Unable x",
        GeoResult.err (JVal.jstr "Could not determine your IP address.")),
       [], 0) :=
  c9_unable_substring_check ["Unable x"] "9.9.9.9" ReqOutcome.netError
    ReqOutcome.netError [] "Unable x" 0 (by decide) (by decide)

/-- C10: the loopback test is exact string equality with "127.0.0.1" applied
to the candidate after header extraction: the outbound IP-discovery call
happens exactly when the candidate equals "127.0.0.1" (also when supplied
via `X-Forwarded-For`), every other candidate — including "::1" and
"127.0.0.2" — is returned unchanged with no call, and those spellings are
indeed what header extraction produces. -/
theorem c10_exact_loopback_test (xff : List String) (remoteAddr : String)
    (ipify : ReqOutcome) :
    ((get_ip_address xff remoteAddr ipify).2 =
       if candidateIp xff remoteAddr = "127.0.0.1" then 1 else 0) ∧
    (candidateIp xff remoteAddr ≠ "127.0.0.1" →
       get_ip_address xff remoteAddr ipify =
         (Except.ok (JVal.jstr (candidateIp xff remoteAddr)), 0)) ∧
    candidateIp ["127.0.0.1"] remoteAddr = "127.0.0.1" ∧
    candidateIp ["::1"] remoteAddr = "::1" ∧
    candidateIp ["127.0.0.2"] remoteAddr = "127.0.0.2" := by
  refine ⟨?_, fun h => ?_, rfl, rfl, rfl⟩
  · by_cases hip : candidateIp xff remoteAddr = "127.0.0.1"
    · simp only [get_ip_address, if_pos hip]
      cases ht : ipifyTry ipify with
      | ok v => rfl
      | error e => by_cases he : e.isRequestException = true <;> simp [he]
    · simp only [get_ip_address, if_neg hip]
  · unfold get_ip_address
    simp only [if_neg h]

theorem c10_witness :
    get_ip_address ["::1"] "9.9.9.9" ReqOutcome.netError =
      (Except.ok (JVal.jstr (candidateIp ["::1"] "9.9.9.9")), 0) :=
  (c10_exact_loopback_test ["::1"] "9.9.9.9" ReqOutcome.netError).2.1
    (by decide)
